import Mathlib

/-!
Verification of the batch analysis orchestrator of the GenAI resume
analyzer (src/models/resume_parser.py, src/utils/file_processor.py,
src/utils/output_handler.py, src/config.py).

The Python code is shallowly embedded:
* Python dict / list / scalar values produced and consumed by the pipeline
  are modelled by the inductive type `Json` (numbers as rationals).
* External collaborators (pdfminer, python-docx, the Gemini client,
  `json.loads`, `tempfile`, `time.strftime`) are fields of an `Env`
  record; code raising an exception is modelled by `Except String`
  where the `String` is Python's `str(e)` for the raised exception.
* The `asyncio` layer: `asyncio.gather(*tasks, return_exceptions=True)`
  returns the settled task results in task (argument) order regardless of
  completion order, which a pure embedding renders as an order-preserving
  map over the chunk.  The admission semaphore
  (`config.MAX_CONCURRENT_REQUESTS`) bounds in-flight work but has no
  effect on values, so it leaves no trace in the embedding.
-/

namespace ResumeAnalyzer

/-- Python values flowing through the pipeline (dicts as association
lists in insertion order, numbers as rationals). -/
inductive Json where
  | null : Json
  | bool : Bool → Json
  | num : Rat → Json
  | str : String → Json
  | arr : List Json → Json
  | obj : List (String × Json) → Json

/-- Python dict lookup on the underlying association list (dicts built by
the embedded code have unique keys). -/
def assocGet : List (String × Json) → String → Option Json
  | [], _ => none
  | (k1, v1) :: rest, k => if k1 = k then some v1 else assocGet rest k

/-- Python dict assignment `d[k] = v`: replaces in place when the key is
present (keeping its position), appends otherwise. -/
def assocSet : List (String × Json) → String → Json → List (String × Json)
  | [], k, v => [(k, v)]
  | (k1, v1) :: rest, k, v =>
    if k1 = k then (k1, v) :: rest else (k1, v1) :: assocSet rest k v

/-- Key lookup on a `Json` value; `none` for non-dict values. -/
def getKey (j : Json) (k : String) : Option Json :=
  match j with
  | Json.obj kvs => assocGet kvs k
  | _ => none

/-- Python item assignment `j[k] = v`; a `TypeError` (modelled as
`Except.error`) on non-dict values. -/
def pySetItem (j : Json) (k : String) (v : Json) : Except String Json :=
  match j with
  | Json.obj kvs => Except.ok (Json.obj (assocSet kvs k v))
  | _ => Except.error "TypeError: object does not support item assignment"

/-- A Streamlit `UploadedFile` as seen by the pipeline: declared name and
declared size in bytes (`file.name`, `file.size`). -/
structure UploadedFile where
  name : String
  size : Nat

/-! ## src/config.py -/

def MODEL_NAME : String := "gemini-pro"
def BATCH_SIZE : Nat := 10
def MAX_CONCURRENT_REQUESTS : Nat := 5
def RATE_LIMIT_DELAY : Nat := 1
def SUPPORTED_FORMATS : List String := [".pdf", ".docx"]
def MAX_FILE_SIZE_MB : Nat := 10

def ERROR_MESSAGES_no_api_key : String := "GEMINI_API_KEY is not set in the .env file"
def ERROR_MESSAGES_unsupported_format : String :=
  "Unsupported file format. Please upload PDF or DOCX files."
def ERROR_MESSAGES_file_too_large : String := "File size exceeds maximum limit of 10MB"

/-! ## Python string primitives used by the pipeline -/

/-- Python `str.lower()` (ASCII case mapping; the names and extensions
handled by the pipeline are ASCII). -/
def pyLower (s : String) : String := String.mk (s.toList.map Char.toLower)

/-- The ASCII whitespace recognised by Python `str.strip()`. -/
def isPySpace (c : Char) : Bool :=
  c = ' ' ∨ c = '\t' ∨ c = '\n' ∨ c = '\r' ∨ c = '\x0b' ∨ c = '\x0c'

/-- Python `str.strip()`: remove leading and trailing whitespace. -/
def pyStrip (s : String) : String :=
  String.mk (((s.toList.dropWhile isPySpace).reverse.dropWhile isPySpace).reverse)

/-- Python builtin `min` on two numbers (returns the first argument on
ties). -/
def pyMin (a b : Rat) : Rat := if a ≤ b then a else b

/-! ## os.path.splitext (POSIX rules, as used on upload names and temp paths) -/

/-- Python `s.rfind(c)`: index of the last occurrence of `c`, `-1` when
absent. -/
def rfindChar (c : Char) (l : List Char) : Int :=
  (List.range l.length).foldl (fun acc k => if l.get? k = some c then (k : Int) else acc) (-1)

/-- `os.path.splitext` (POSIX): split off the extension at the last dot,
provided the dot comes after the last path separator and the base name
has at least one non-dot character before it (so names consisting only
of leading dots have no extension). -/
def splitext (p : String) : String × String :=
  let l := p.toList
  let sepIndex := rfindChar '/' l
  let dotIndex := rfindChar '.' l
  let hasNonDotBefore := (List.range l.length).any fun k =>
    decide (sepIndex < (k : Int)) && decide ((k : Int) < dotIndex) && decide (l.getD k '.' ≠ '.')
  if decide (sepIndex < dotIndex) && hasNonDotBefore then
    (String.mk (l.take dotIndex.toNat), String.mk (l.drop dotIndex.toNat))
  else
    (p, "")

/-! ## External collaborators -/

/-- The external capabilities the pipeline depends on.  `Except.error s`
models the callee raising an exception with `str(e) = s`. -/
structure Env where
  /-- `pdfminer.high_level.extract_text` on a file path. -/
  pdf_extract_text : String → Except String String
  /-- `docx.Document(path)` followed by reading `paragraph.text` of each
  paragraph. -/
  docx_paragraphs : String → Except String (List String)
  /-- `self.model.generate_content(prompt).text` (Gemini round trip). -/
  generate_content : String → Except String String
  /-- `json.loads` (strict JSON decoding); the error string is the
  `JSONDecodeError` message. -/
  json_loads : String → Except String Json
  /-- `tempfile.NamedTemporaryFile` creation plus writing the upload
  buffer, returning the temp path. -/
  make_temp_file : UploadedFile → Except String String
  /-- `time.strftime("%Y-%m-%d %H:%M:%S")` at stamping time. -/
  strftime_now : String

/-! ## src/utils/file_processor.py -/

/-- `FileProcessor.validate_file`.  The Python size check is
`file.size / (1024 * 1024) > config.MAX_FILE_SIZE_MB` in float
arithmetic; division of a byte count below 2^53 by the power of two
2^20 is exact in binary floating point, so the comparison is exactly
the integer comparison `file.size > MAX_FILE_SIZE_MB * 1024 * 1024`
used here. -/
def validate_file : Option UploadedFile → Bool × String
  | none => (false, "No file provided")
  | some file =>
    let file_extension := pyLower (splitext file.name).2
    if file_extension ∉ SUPPORTED_FORMATS then
      (false, ERROR_MESSAGES_unsupported_format)
    else if file.size > MAX_FILE_SIZE_MB * 1024 * 1024 then
      (false, ERROR_MESSAGES_file_too_large)
    else
      (true, "File is valid")

/-- `FileProcessor.extract_text_from_file`: dispatch on the lowered
extension, wrap any failure (including the `ValueError` for unsupported
formats) in the catch-all message. -/
def extract_text_from_file (env : Env) (file_path : String) : Except String String :=
  let file_extension := pyLower (splitext file_path).2
  let attempt : Except String String :=
    if file_extension = ".pdf" then
      env.pdf_extract_text file_path
    else if file_extension = ".docx" then
      match env.docx_paragraphs file_path with
      | Except.ok paragraphs => Except.ok (String.intercalate "\n" paragraphs)
      | Except.error e => Except.error e
    else
      Except.error ("Unsupported file format: " ++ file_extension)
  match attempt with
  | Except.ok t => Except.ok t
  | Except.error e => Except.error ("Error extracting text from file: " ++ e)

/-- `FileProcessor.save_uploaded_file`: any exception from temp-file
creation or writing is re-raised with the wrapping message. -/
def save_uploaded_file (env : Env) (uploaded_file : UploadedFile) : Except String String :=
  match env.make_temp_file uploaded_file with
  | Except.ok path => Except.ok path
  | Except.error e => Except.error ("Error saving uploaded file: " ++ e)

/-- Round half to even (Python builtin `round` semantics on exact
values). -/
def roundHalfEven (x : Rat) : Int :=
  let f : Int := Int.floor x
  let frac : Rat := x - (f : Rat)
  if frac < 1 / 2 then f
  else if 1 / 2 < frac then f + 1
  else if f % 2 = 0 then f else f + 1

/-- Python `round(x, 2)` on an exact value. -/
def pyRound2 (x : Rat) : Rat := ((roundHalfEven (x * 100) : Int) : Rat) / 100

/-- `FileProcessor.get_file_info`. -/
def get_file_info (file : UploadedFile) : Json :=
  Json.obj
    [("name", Json.str file.name),
     ("size_mb", Json.num (pyRound2 ((file.size : Rat) / (1024 * 1024)))),
     ("type", Json.str (pyLower (splitext file.name).2))]

/-! ## src/models/resume_parser.py -/

/-- The fixed instruction template of `ResumeParser.create_analysis_prompt`
up to the point where the extracted resume text is interpolated
(the doubled braces of the Python f-string render as single braces). -/
def analysis_prompt_header : String :=
  "\n        Analyze the following resume and extract the following information in JSON format:\n"
  ++ "        \n"
  ++ "        \x7b\n"
  ++ "            \"name\": \"Full name of the person\",\n"
  ++ "            \"contact_details\": \x7b\n"
  ++ "                \"email\": \"Email address\",\n"
  ++ "                \"phone\": \"Phone number\",\n"
  ++ "                \"location\": \"City, State/Country\"\n"
  ++ "            \x7d,\n"
  ++ "            \"education\": \x7b\n"
  ++ "                \"university\": \"University/Institution name\",\n"
  ++ "                \"year_of_study\": \"Current year or graduation year\",\n"
  ++ "                \"course\": \"Degree program name\",\n"
  ++ "                \"discipline\": \"Field of study\",\n"
  ++ "                \"cgpa_percentage\": \"CGPA or percentage if available\"\n"
  ++ "            \x7d,\n"
  ++ "            \"skills\": \x7b\n"
  ++ "                \"technical_skills\": [\"List of technical skills\"],\n"
  ++ "                \"soft_skills\": [\"List of soft skills\"],\n"
  ++ "                \"programming_languages\": [\"List of programming languages\"],\n"
  ++ "                \"tools_technologies\": [\"List of tools and technologies\"]\n"
  ++ "            \x7d,\n"
  ++ "            \"experience_scores\": \x7b\n"
  ++ "                \"ai_ml_experience\": \"Score from 1-10 based on AI/ML experience\",\n"
  ++ "                \"gen_ai_experience\": \"Score from 1-10 based on Gen AI experience\",\n"
  ++ "                \"overall_experience\": \"Score from 1-10 based on overall experience\"\n"
  ++ "            \x7d,\n"
  ++ "            \"supporting_information\": \x7b\n"
  ++ "                \"certifications\": [\"List of relevant certifications\"],\n"
  ++ "                \"internships\": [\"List of internships\"],\n"
  ++ "                \"projects\": [\"List of relevant projects\"],\n"
  ++ "                \"achievements\": [\"List of achievements\"]\n"
  ++ "            \x7d,\n"
  ++ "            \"analysis_metadata\": \x7b\n"
  ++ "                \"processing_timestamp\": \"Current timestamp\",\n"
  ++ "                \"file_name\": \"Original file name\",\n"
  ++ "                \"confidence_score\": \"Confidence in analysis (1-10)\"\n"
  ++ "            \x7d\n"
  ++ "        \x7d\n"
  ++ "        \n"
  ++ "        Resume text:\n"
  ++ "        "

/-- The fixed tail of the instruction template after the resume text. -/
def analysis_prompt_footer : String :=
  "\n        \n        Please ensure the response is valid JSON format only.\n        "

/-- `ResumeParser.create_analysis_prompt`. -/
def create_analysis_prompt (text : String) : String :=
  analysis_prompt_header ++ text ++ analysis_prompt_footer

/-- The two stamping statements of `analyze_single_resume`:
`analysis_result["analysis_metadata"]["file_name"] = file_name` and
`analysis_result["analysis_metadata"]["processing_timestamp"] = now`.
They succeed exactly when the decoded value is a dict whose
`"analysis_metadata"` entry is itself a dict; otherwise the lookup or the
assignment raises (`KeyError` / `TypeError`, modelled by `Except.error`
carrying the exception text; Python renders the `KeyError` argument with
surrounding quotes, elided here). -/
def add_metadata (analysis_result : Json) (file_name now : String) : Except String Json :=
  match analysis_result with
  | Json.obj kvs =>
    match assocGet kvs "analysis_metadata" with
    | some (Json.obj meta) =>
      Except.ok (Json.obj (assocSet kvs "analysis_metadata"
        (Json.obj (assocSet (assocSet meta "file_name" (Json.str file_name))
          "processing_timestamp" (Json.str now)))))
    | some (Json.str _) => Except.error "TypeError: str object does not support item assignment"
    | some (Json.arr _) => Except.error "TypeError: list indices must be integers or slices, not str"
    | some (Json.num _) => Except.error "TypeError: object is not subscriptable"
    | some (Json.bool _) => Except.error "TypeError: object is not subscriptable"
    | some Json.null => Except.error "TypeError: NoneType object is not subscriptable"
    | none => Except.error "KeyError: analysis_metadata"
  | Json.str _ => Except.error "TypeError: string indices must be integers"
  | Json.arr _ => Except.error "TypeError: list indices must be integers or slices, not str"
  | _ => Except.error "TypeError: object is not subscriptable"

/-- `ResumeParser.analyze_single_resume`: extract text, build the prompt,
call the model, strictly decode the stripped response, stamp the
metadata.  A `json.JSONDecodeError` is converted to the parse-failure
dict that retains the raw (unstripped) response; every other exception is
converted by the catch-all handler to the generic error dict.  The
function never raises.  (`.strip()` is `pyStrip`.) -/
def analyze_single_resume (env : Env) (file_path file_name : String) : Json :=
  match extract_text_from_file env file_path with
  | Except.error e =>
    Json.obj [("error", Json.str ("Error analyzing resume: " ++ e)),
              ("file_name", Json.str file_name)]
  | Except.ok text =>
    match env.generate_content (create_analysis_prompt text) with
    | Except.error e =>
      Json.obj [("error", Json.str ("Error analyzing resume: " ++ e)),
                ("file_name", Json.str file_name)]
    | Except.ok response =>
      match env.json_loads (pyStrip response) with
      | Except.error e =>
        Json.obj [("error", Json.str ("Failed to parse AI response as JSON: " ++ e)),
                  ("file_name", Json.str file_name),
                  ("raw_response", Json.str response)]
      | Except.ok analysis_result =>
        match add_metadata analysis_result file_name env.strftime_now with
        | Except.error e =>
          Json.obj [("error", Json.str ("Error analyzing resume: " ++ e)),
                    ("file_name", Json.str file_name)]
        | Except.ok result => result

/-- The per-task body `process_file` nested in `process_batch`:
validate, save to a temp file, analyze, attach `file_info`.
`Except.error` is an exception escaping the task (to be settled by
`asyncio.gather`); the `finally` cleanup of the temp file swallows its
own errors and does not affect the value. -/
def process_file (env : Env) (file : UploadedFile) : Except String Json :=
  let validation := validate_file (some file)
  if validation.1 then
    match save_uploaded_file env file with
    | Except.error e => Except.error e
    | Except.ok temp_file_path =>
      let result := analyze_single_resume env temp_file_path file.name
      match pySetItem result "file_info" (get_file_info file) with
      | Except.error e => Except.error e
      | Except.ok result2 => Except.ok result2
  else
    Except.ok (Json.obj [("error", Json.str validation.2),
                         ("file_name", Json.str file.name)])

/-- The settling step of `process_batch` (the `enumerate(batch_results)`
loop): a task that raised is converted into the processing-error dict
tagged with the matching input's name; a task value is appended as is. -/
def handle_task_result (name : String) : Except String Json → Json
  | Except.error e =>
    Json.obj [("error", Json.str ("Processing error: " ++ e)),
              ("file_name", Json.str name)]
  | Except.ok r => r

/-- Observable trace of one `process_batch` run: the returned outcome
list, the successive percentages handed to `progress_callback` (when one
is supplied; the values do not depend on its presence), and the number of
`asyncio.sleep(config.RATE_LIMIT_DELAY)` rate-limit suspensions. -/
structure BatchTrace where
  results : List Json
  progress : List Rat
  delays : Nat

/-- The chunk loop `for i in range(0, len(files), config.BATCH_SIZE)` of
`ResumeParser.process_batch`, one recursive step per chunk starting at
index `i`.  `fuel` bounds the number of iterations so the recursion is
structural; `files.length` iterations always suffice since `i` advances
by `batchSize ≥ 1` (Python `range` raises for step 0; `config.BATCH_SIZE`
is 10). -/
def process_batch_go (env : Env) (batchSize : Nat) (files : List UploadedFile) :
    Nat → Nat → BatchTrace
  | _, 0 => { results := [], progress := [], delays := 0 }
  | i, fuel + 1 =>
    if i < files.length then
      let batch := (files.drop i).take batchSize
      let batch_results := batch.map fun file => process_file env file
      let settled := (batch.zip batch_results).map fun p => handle_task_result p.1.name p.2
      let progressValue : Rat :=
        pyMin (((i + batch.length : Nat) : Rat) / (files.length : Rat) * 100) 100
      let rest := process_batch_go env batchSize files (i + batchSize) fuel
      { results := settled ++ rest.results,
        progress := progressValue :: rest.progress,
        delays := (if i + batchSize < files.length then 1 else 0) + rest.delays }
    else
      { results := [], progress := [], delays := 0 }

/-- `ResumeParser.process_batch` with the chunk size (`config.BATCH_SIZE`,
default 10) as an explicit parameter. -/
def process_batch (env : Env) (batchSize : Nat) (files : List UploadedFile) : BatchTrace :=
  process_batch_go env batchSize files 0 files.length

/-! ## src/utils/output_handler.py -/

/-- The Success/Failure discrimination the aggregator applies to one
outcome: `"error" in r` on the outcome dict. -/
def hasErrorKey (j : Json) : Bool :=
  match j with
  | Json.obj kvs => (assocGet kvs "error").isSome
  | _ => false

/-- `successful_results` of `OutputHandler.generate_summary_stats`:
`[r for r in results if "error" not in r]`. -/
def successful_results (results : List Json) : List Json :=
  results.filter fun r => !(hasErrorKey r)

/-- `failed_results` of `OutputHandler.generate_summary_stats`:
`[r for r in results if "error" in r]`. -/
def failed_results (results : List Json) : List Json :=
  results.filter fun r => hasErrorKey r

/-- The `success_rate` entry of the stats dict:
`len(successful)/len(results)*100 if results else 0`. -/
def success_rate (results : List Json) : Rat :=
  if results.isEmpty then 0
  else ((successful_results results).length : Rat) / (results.length : Rat) * 100

/-! ## Derived quantities used in the statements -/

/-- Number of chunks (iterations of the chunk loop) for `n` items and
chunk size `bs`: the ceiling of `n / bs`. -/
def numChunks (n bs : Nat) : Nat := (n + bs - 1) / bs

/-- The chunk decomposition `files[i:i+bs]` performed by the loop, as a
list of slices (fueled like the loop itself). -/
def pyChunksGo (bs : Nat) : Nat → List UploadedFile → List (List UploadedFile)
  | 0, _ => []
  | _, [] => []
  | fuel + 1, x :: xs => ((x :: xs).take bs) :: pyChunksGo bs fuel ((x :: xs).drop bs)

/-- The list of chunks a batch run processes. -/
def pyChunks (bs : Nat) (files : List UploadedFile) : List (List UploadedFile) :=
  pyChunksGo bs files.length files

/-- Projection of a task failure message (used to state outcomes of
failed stamping without an existential). -/
def errMsgOf : Except String Json → String
  | Except.error e => e
  | Except.ok _ => ""

/-! ## Concrete fixtures for witnesses and counterexamples -/

/-- An environment whose model responses never decode (every analysis is
a parse failure); extraction and temp files succeed. -/
def testEnv : Env :=
  { pdf_extract_text := fun _ => Except.ok "",
    docx_paragraphs := fun _ => Except.ok [],
    generate_content := fun _ => Except.ok "x",
    json_loads := fun _ => Except.error "Expecting value",
    make_temp_file := fun _ => Except.ok "t.pdf",
    strftime_now := "2024-01-01 00:00:00" }

/-- 25 equal uploads (an unsupported extension, so per-item work is the
immediate validation failure; chunking behaviour is unaffected). -/
def files25 : List UploadedFile := List.replicate 25 { name := "resume.txt", size := 1024 }

/-- An environment whose model response decodes to a dict that itself
carries a top-level `"error"` entry next to a dict-valued
`"analysis_metadata"` entry. -/
def envC3 : Env :=
  { pdf_extract_text := fun _ => Except.ok "",
    docx_paragraphs := fun _ => Except.ok [],
    generate_content := fun _ => Except.ok "x",
    json_loads := fun _ =>
      Except.ok (Json.obj [("error", Json.str "hi"), ("analysis_metadata", Json.obj [])]),
    make_temp_file := fun _ => Except.ok "t.pdf",
    strftime_now := "2024-01-01 00:00:00" }

/-- An environment where PDF text extraction raises with cause `boom`. -/
def envC9 : Env :=
  { pdf_extract_text := fun _ => Except.error "boom",
    docx_paragraphs := fun _ => Except.ok [],
    generate_content := fun _ => Except.ok "x",
    json_loads := fun _ => Except.error "e",
    make_temp_file := fun _ => Except.ok "t.pdf",
    strftime_now := "t" }

/-- An environment where the model call raises with cause `boom`. -/
def envC9b : Env :=
  { pdf_extract_text := fun _ => Except.ok "",
    docx_paragraphs := fun _ => Except.ok [],
    generate_content := fun _ => Except.error "boom",
    json_loads := fun _ => Except.error "e",
    make_temp_file := fun _ => Except.ok "t.pdf",
    strftime_now := "t" }

/-- An environment whose model response decodes to a non-dict value. -/
def envC10 : Env :=
  { pdf_extract_text := fun _ => Except.ok "",
    docx_paragraphs := fun _ => Except.ok [],
    generate_content := fun _ => Except.ok "x",
    json_loads := fun _ => Except.ok (Json.obj []),
    make_temp_file := fun _ => Except.ok "t.pdf",
    strftime_now := "t" }

/-- An environment where temp-file creation raises (so the task body
itself raises past the validation step). -/
def envErr : Env :=
  { pdf_extract_text := fun _ => Except.ok "",
    docx_paragraphs := fun _ => Except.ok [],
    generate_content := fun _ => Except.ok "x",
    json_loads := fun _ => Except.error "e",
    make_temp_file := fun _ => Except.error "disk full",
    strftime_now := "t" }

/-- A decoded model response carrying model-reported metadata values. -/
def jC8 : Json :=
  Json.obj [("name", Json.str "Jo"),
    ("analysis_metadata",
      Json.obj [("processing_timestamp", Json.str "model-clock"),
                ("file_name", Json.str "model-name"),
                ("confidence_score", Json.num 5)])]

/-- `jC8` after the orchestrator stamps the true file name `cv.pdf` and
its own clock. -/
def rC8 : Json :=
  Json.obj [("name", Json.str "Jo"),
    ("analysis_metadata",
      Json.obj [("processing_timestamp", Json.str "2024-01-01 00:00:00"),
                ("file_name", Json.str "cv.pdf"),
                ("confidence_score", Json.num 5)])]

/-- An environment whose model response decodes to `jC8`. -/
def envC8 : Env :=
  { pdf_extract_text := fun _ => Except.ok "",
    docx_paragraphs := fun _ => Except.ok [],
    generate_content := fun _ => Except.ok "x",
    json_loads := fun _ => Except.ok jC8,
    make_temp_file := fun _ => Except.ok "t.pdf",
    strftime_now := "2024-01-01 00:00:00" }

/-! ## Helper lemmas -/

lemma zip_map_eval {α β γ : Type} (f : α → β) (g : α → β → γ) :
    ∀ l : List α, ((l.zip (l.map f)).map fun p => g p.1 p.2) = l.map fun a => g a (f a) := by
  intro l
  induction l with
  | nil => rfl
  | cons a t ih => simp [ih]

lemma assocGet_assocSet_self (l : List (String × Json)) (k : String) (v : Json) :
    assocGet (assocSet l k v) k = some v := by
  induction l with
  | nil => simp [assocGet, assocSet]
  | cons p t ih =>
    by_cases h : p.1 = k
    · simp [assocGet, assocSet, h]
    · simp [assocGet, assocSet, h, ih]

lemma assocGet_assocSet_ne (l : List (String × Json)) (k k' : String) (v : Json)
    (h : k' ≠ k) : assocGet (assocSet l k v) k' = assocGet l k' := by
  have hk : ¬ k = k' := fun hh => h hh.symm
  induction l with
  | nil => simp [assocGet, assocSet, hk]
  | cons p t ih =>
    obtain ⟨k1, v1⟩ := p
    by_cases hp : k1 = k
    · subst hp
      simp [assocGet, assocSet, hk]
    · simp [assocGet, assocSet, hp, ih]

/-- On success, `add_metadata` dissects as: the decoded value is a dict,
its `"analysis_metadata"` entry is a dict, and the result is the decoded
dict with the two fields overwritten inside that entry. -/
lemma add_metadata_ok_shape {j r : Json} {n t : String}
    (h : add_metadata j n t = Except.ok r) :
    ∃ kvs meta, j = Json.obj kvs ∧
      assocGet kvs "analysis_metadata" = some (Json.obj meta) ∧
      r = Json.obj (assocSet kvs "analysis_metadata"
        (Json.obj (assocSet (assocSet meta "file_name" (Json.str n))
          "processing_timestamp" (Json.str t)))) := by
  cases j with
  | obj kvs =>
    cases hg : assocGet kvs "analysis_metadata" with
    | none => simp [add_metadata, hg] at h
    | some v =>
      cases v with
      | obj meta =>
        refine ⟨kvs, meta, rfl, hg, ?_⟩
        simp [add_metadata, hg] at h
        exact h.symm
      | null => simp [add_metadata, hg] at h
      | bool b => simp [add_metadata, hg] at h
      | num q => simp [add_metadata, hg] at h
      | str s => simp [add_metadata, hg] at h
      | arr a => simp [add_metadata, hg] at h
  | null => simp [add_metadata] at h
  | bool b => simp [add_metadata] at h
  | num q => simp [add_metadata] at h
  | str s => simp [add_metadata] at h
  | arr a => simp [add_metadata] at h

/-- A successfully stamped record holds the orchestrator-chosen file name
and timestamp in its `analysis_metadata` dict. -/
lemma add_metadata_fields {j r : Json} {n t : String}
    (h : add_metadata j n t = Except.ok r) :
    ∃ m, getKey r "analysis_metadata" = some (Json.obj m) ∧
      assocGet m "file_name" = some (Json.str n) ∧
      assocGet m "processing_timestamp" = some (Json.str t) := by
  obtain ⟨kvs, meta, hj, hg, hr⟩ := add_metadata_ok_shape h
  subst hr
  refine ⟨assocSet (assocSet meta "file_name" (Json.str n)) "processing_timestamp" (Json.str t),
    ?_, ?_, ?_⟩
  · simp [getKey, assocGet_assocSet_self]
  · rw [assocGet_assocSet_ne _ _ _ _ (by decide), assocGet_assocSet_self]
  · rw [assocGet_assocSet_self]

/-- When the decoded value has no dict-valued `"analysis_metadata"`
entry, the stamping statements raise. -/
lemma add_metadata_error_of {j : Json} (n t : String)
    (h : ∀ m, getKey j "analysis_metadata" ≠ some (Json.obj m)) :
    ∃ e, add_metadata j n t = Except.error e := by
  cases j with
  | obj kvs =>
    cases hg : assocGet kvs "analysis_metadata" with
    | none => exact ⟨"KeyError: analysis_metadata", by simp [add_metadata, hg]⟩
    | some v =>
      cases v with
      | obj meta => exact absurd (by simpa [getKey] using hg) (h meta)
      | null =>
        exact ⟨"TypeError: NoneType object is not subscriptable", by simp [add_metadata, hg]⟩
      | bool b =>
        exact ⟨"TypeError: object is not subscriptable", by simp [add_metadata, hg]⟩
      | num q =>
        exact ⟨"TypeError: object is not subscriptable", by simp [add_metadata, hg]⟩
      | str s =>
        exact ⟨"TypeError: str object does not support item assignment",
          by simp [add_metadata, hg]⟩
      | arr a =>
        exact ⟨"TypeError: list indices must be integers or slices, not str",
          by simp [add_metadata, hg]⟩
  | null => exact ⟨"TypeError: object is not subscriptable", by simp [add_metadata]⟩
  | bool b => exact ⟨"TypeError: object is not subscriptable", by simp [add_metadata]⟩
  | num q => exact ⟨"TypeError: object is not subscriptable", by simp [add_metadata]⟩
  | str s => exact ⟨"TypeError: string indices must be integers", by simp [add_metadata]⟩
  | arr a =>
    exact ⟨"TypeError: list indices must be integers or slices, not str",
      by simp [add_metadata]⟩

lemma numChunks_eq_one {m bs : Nat} (h1 : 0 < m) (h2 : m ≤ bs) : numChunks m bs = 1 := by
  have hbs : 0 < bs := lt_of_lt_of_le h1 h2
  have hm : m + bs - 1 = (m - 1) + bs := by omega
  have hlt : m - 1 < bs := by omega
  rw [numChunks, hm, Nat.add_div_right _ hbs, Nat.div_eq_of_lt hlt]

lemma numChunks_zero (bs : Nat) : numChunks 0 bs = 0 := by
  rcases Nat.eq_zero_or_pos bs with h | h
  · simp [numChunks, h]
  · rw [numChunks]
    exact Nat.div_eq_of_lt (by omega)

lemma numChunks_pos {m bs : Nat} (h1 : 0 < m) (hbs : 0 < bs) : 0 < numChunks m bs := by
  rw [numChunks]
  exact Nat.div_pos (by omega) hbs

lemma numChunks_step {m bs : Nat} (h1 : 0 < m) (hbs : 0 < bs) :
    numChunks m bs = numChunks (m - bs) bs + 1 := by
  rcases le_or_lt m bs with h | h
  · rw [numChunks_eq_one h1 h, Nat.sub_eq_zero_of_le h, numChunks_zero]
  · have hm : m + bs - 1 = ((m - bs) + bs - 1) + bs := by omega
    rw [numChunks, hm, Nat.add_div_right _ hbs, numChunks]

/-- The outcome list of the chunk loop from index `i` is the settled task
result of every remaining input, in input order. -/
lemma go_results (env : Env) (bs : Nat) (files : List UploadedFile) (hbs : 0 < bs) :
    ∀ fuel i, files.length - i ≤ fuel →
      (process_batch_go env bs files i fuel).results =
        (files.drop i).map fun f => handle_task_result f.name (process_file env f) := by
  intro fuel
  induction fuel with
  | zero =>
    intro i hi
    simp [process_batch_go, List.drop_eq_nil_of_le (by omega : files.length ≤ i)]
  | succ fuel ih =>
    intro i hi
    by_cases h : i < files.length
    · have hdd : files.drop (i + bs) = (files.drop i).drop bs := by
        rw [List.drop_drop, Nat.add_comm]
      simp only [process_batch_go, if_pos h]
      rw [zip_map_eval (fun file => process_file env file)
        (fun a b => handle_task_result a.name b), ih (i + bs) (by omega), hdd,
        ← List.map_append, List.take_append_drop]
    · simp [process_batch_go, h, List.drop_eq_nil_of_le (by omega : files.length ≤ i)]

/-- Past the end of the input there are no further progress reports. -/
lemma go_progress_nil (env : Env) (bs : Nat) (files : List UploadedFile)
    (i : Nat) (h : files.length ≤ i) :
    ∀ fuel, (process_batch_go env bs files i fuel).progress = [] := by
  intro fuel
  cases fuel with
  | zero => simp [process_batch_go]
  | succ fuel => simp [process_batch_go, Nat.not_lt_of_le h]

/-- The first progress report of the loop from index `i`. -/
lemma go_progress_head (env : Env) (bs : Nat) (files : List UploadedFile)
    (fuel i : Nat) (h : i < files.length) (hf : files.length - i ≤ fuel) :
    (process_batch_go env bs files i fuel).progress.head? =
      some (pyMin (((i + ((files.drop i).take bs).length : Nat) : Rat) /
        (files.length : Rat) * 100) 100) := by
  cases fuel with
  | zero => omega
  | succ fuel => simp [process_batch_go, h]

/-- One progress report per chunk. -/
lemma go_progress_length (env : Env) (bs : Nat) (files : List UploadedFile) (hbs : 0 < bs) :
    ∀ fuel i, files.length - i ≤ fuel →
      (process_batch_go env bs files i fuel).progress.length =
        numChunks (files.length - i) bs := by
  intro fuel
  induction fuel with
  | zero =>
    intro i hi
    have h0 : files.length - i = 0 := by omega
    simp [process_batch_go, h0, numChunks_zero]
  | succ fuel ih =>
    intro i hi
    by_cases h : i < files.length
    · have hstep : numChunks (files.length - i) bs =
          numChunks (files.length - (i + bs)) bs + 1 := by
        have := @numChunks_step (files.length - i) bs (by omega) hbs
        rw [this]
        congr 2
        omega
      simp only [process_batch_go, if_pos h]
      simp only [List.length_cons, ih (i + bs) (by omega), hstep]
    · have h0 : files.length - i = 0 := by omega
      simp [process_batch_go, h, h0, numChunks_zero]

lemma pyMin_le_pyMin_left {a b c : Rat} (h : a ≤ b) : pyMin a c ≤ pyMin b c := by
  unfold pyMin
  split_ifs <;> linarith

/-- The progress value reported for the chunk of index `k` (counting from
the loop position `i`). -/
lemma go_progress_get (env : Env) (bs : Nat) (files : List UploadedFile) (hbs : 0 < bs) :
    ∀ fuel i k, files.length - i ≤ fuel → i + k * bs < files.length →
      (process_batch_go env bs files i fuel).progress.get? k =
        some (pyMin (((min (i + (k + 1) * bs) files.length : Nat) : Rat) /
          (files.length : Rat) * 100) 100) := by
  intro fuel
  induction fuel with
  | zero => intro i k hf hk; omega
  | succ fuel ih =>
    intro i k hf hk
    have h : i < files.length := lt_of_le_of_lt (Nat.le_add_right i (k * bs)) hk
    cases k with
    | zero =>
      simp only [process_batch_go, if_pos h]
      have hlen : ((files.drop i).take bs).length = min bs (files.length - i) := by simp
      have harith : i + min bs (files.length - i) = min (i + 1 * bs) files.length := by
        rw [Nat.one_mul]; omega
      simp only [List.get?_cons_zero, hlen, harith]
    | succ k =>
      have hk' : (i + bs) + k * bs < files.length := by
        have : i + bs + k * bs = i + (k + 1) * bs := by ring
        omega
      have harith : i + bs + (k + 1) * bs = i + (k + 1 + 1) * bs := by ring
      simp only [process_batch_go, if_pos h, List.get?_cons_succ]
      rw [ih (i + bs) k (by omega) hk', harith]

/-- The last progress report of a non-empty run is exactly 100. -/
lemma go_progress_last (env : Env) (bs : Nat) (files : List UploadedFile) (hbs : 0 < bs) :
    ∀ fuel i, i < files.length → files.length - i ≤ fuel →
      (process_batch_go env bs files i fuel).progress.getLast? = some 100 := by
  intro fuel
  induction fuel with
  | zero => intro i h hf; omega
  | succ fuel ih =>
    intro i h hf
    simp only [process_batch_go, if_pos h]
    by_cases hnext : i + bs < files.length
    · have hlast := ih (i + bs) hnext (by omega)
      have hne : (process_batch_go env bs files (i + bs) fuel).progress ≠ [] := by
        intro hnil
        rw [hnil] at hlast
        simp at hlast
      rw [List.getLast?_cons, hlast]
      rfl
    · have hnil := go_progress_nil env bs files (i + bs) (by omega) fuel
      rw [hnil]
      have hn : (0 : Rat) < (files.length : Rat) := by
        exact_mod_cast Nat.pos_of_ne_zero (by omega)
      have hlen : ((files.drop i).take bs).length = min bs (files.length - i) := by simp
      have harith : i + min bs (files.length - i) = files.length := by omega
      simp only [List.getLast?_singleton, hlen, harith, Option.some_inj]
      rw [div_self (ne_of_gt hn), one_mul]
      simp [pyMin]

/-- Successive progress reports are non-decreasing. -/
lemma go_progress_chain (env : Env) (bs : Nat) (files : List UploadedFile) (hbs : 0 < bs) :
    ∀ fuel i, files.length - i ≤ fuel →
      List.Chain' (fun a b : Rat => a ≤ b)
        (process_batch_go env bs files i fuel).progress := by
  intro fuel
  induction fuel with
  | zero => intro i h; simp [process_batch_go]
  | succ fuel ih =>
    intro i hf
    by_cases h : i < files.length
    · simp only [process_batch_go, if_pos h]
      rw [List.chain'_cons']
      refine ⟨?_, ih (i + bs) (by omega)⟩
      intro b hb
      by_cases hnext : i + bs < files.length
      · rw [go_progress_head env bs files fuel (i + bs) hnext (by omega)] at hb
        have hb' : b = pyMin (((i + bs + ((files.drop (i + bs)).take bs).length : Nat) : Rat) /
            (files.length : Rat) * 100) 100 := by
          simpa using hb.symm
        subst hb'
        apply pyMin_le_pyMin_left
        have hlen1 : ((files.drop i).take bs).length = min bs (files.length - i) := by simp
        have hlen2 : ((files.drop (i + bs)).take bs).length =
            min bs (files.length - (i + bs)) := by simp
        rw [hlen1, hlen2]
        have hnat : i + min bs (files.length - i) ≤
            i + bs + min bs (files.length - (i + bs)) := by omega
        have hc : ((i + min bs (files.length - i) : Nat) : Rat) ≤
            ((i + bs + min bs (files.length - (i + bs)) : Nat) : Rat) := by
          exact_mod_cast hnat
        gcongr
      · rw [go_progress_nil env bs files (i + bs) (by omega)] at hb
        simp at hb
    · simp [process_batch_go, h]

/-- Number of rate-limit suspensions: one per chunk boundary. -/
lemma go_delays (env : Env) (bs : Nat) (files : List UploadedFile) (hbs : 0 < bs) :
    ∀ fuel i, files.length - i ≤ fuel →
      (process_batch_go env bs files i fuel).delays =
        numChunks (files.length - i) bs - 1 := by
  intro fuel
  induction fuel with
  | zero =>
    intro i hi
    have h0 : files.length - i = 0 := by omega
    simp [process_batch_go, h0, numChunks_zero]
  | succ fuel ih =>
    intro i hi
    by_cases h : i < files.length
    · simp only [process_batch_go, if_pos h]
      rw [ih (i + bs) (by omega)]
      by_cases hnext : i + bs < files.length
      · rw [if_pos hnext]
        have h1 := @numChunks_step (files.length - i) bs (by omega) hbs
        have h3 : files.length - i - bs = files.length - (i + bs) := by omega
        rw [h3] at h1
        have h2 : 0 < numChunks (files.length - (i + bs)) bs := numChunks_pos (by omega) hbs
        omega
      · rw [if_neg hnext]
        have h0 : files.length - (i + bs) = 0 := by omega
        rw [h0, numChunks_zero]
        have h1 : numChunks (files.length - i) bs = 1 :=
          numChunks_eq_one (by omega) (by omega)
        omega
    · have h0 : files.length - i = 0 := by omega
      simp [process_batch_go, h, h0, numChunks_zero]

/-! ## Claims -/

/-- C1: `process_batch` returns exactly one outcome per input item, the
outcome list has the same length as the input list, and the outcome at
index `i` is the settled result of the task for the input at index `i`
(the `asyncio.gather` aggregation is order-preserving, so global input
order is kept regardless of completion order). -/
theorem spec_C1 (env : Env) (batchSize : Nat) (files : List UploadedFile)
    (hbs : 0 < batchSize) :
    (process_batch env batchSize files).results.length = files.length ∧
    (process_batch env batchSize files).results =
      files.map (fun f => handle_task_result f.name (process_file env f)) ∧
    ∀ i : Nat, (process_batch env batchSize files).results.get? i =
      (files.get? i).map fun f => handle_task_result f.name (process_file env f) := by
  have hres := go_results env batchSize files hbs files.length 0 (by omega)
  rw [List.drop_zero] at hres
  refine ⟨?_, ?_, ?_⟩
  · rw [process_batch, hres, List.length_map]
  · rw [process_batch, hres]
  · intro i
    rw [process_batch, hres, List.get?_map]

theorem spec_C1_witness :
    0 < 10 ∧ (process_batch testEnv 10 files25).results.length = files25.length :=
  ⟨by decide, (spec_C1 testEnv 10 files25 (by decide)).1⟩

/-- C2: a task that raises an unhandled exception is settled at the
`asyncio.gather` boundary into a Failure dict tagged with the item's
file name; the batch still returns one outcome for every input (no
sibling task and no batch-level failure results from an item-level
error). -/
theorem spec_C2 (env : Env) (batchSize : Nat) (files : List UploadedFile)
    (hbs : 0 < batchSize) :
    (∀ i f e, files.get? i = some f → process_file env f = Except.error e →
      (process_batch env batchSize files).results.get? i =
        some (Json.obj [("error", Json.str ("Processing error: " ++ e)),
                        ("file_name", Json.str f.name)])) ∧
    (process_batch env batchSize files).results.length = files.length := by
  have hres := go_results env batchSize files hbs files.length 0 (by omega)
  rw [List.drop_zero] at hres
  constructor
  · intro i f e hi hp
    rw [process_batch, hres, List.get?_map, hi]
    simp [handle_task_result, hp]
  · rw [process_batch, hres, List.length_map]

/-- A valid upload used to observe a raising task body. -/
def fileA : UploadedFile := { name := "a.pdf", size := 1 }

theorem spec_C2_witness :
    0 < 1 ∧ (process_batch envErr 1 [fileA]).results.get? 0 =
      some (Json.obj
        [("error", Json.str ("Processing error: " ++ "Error saving uploaded file: disk full")),
         ("file_name", Json.str fileA.name)]) :=
  ⟨by decide,
    (spec_C2 envErr 1 [fileA] (by decide)).1 0 fileA
      "Error saving uploaded file: disk full" rfl rfl⟩

/-- C4: an item with an unsupported extension or an oversized declared
size is rejected by validation before any external work: the task result
is the validation-failure dict, it is the same whatever the external
collaborators do (so text extraction and the analysis client are never
invoked for it), and the message is the corresponding configured error
message. -/
theorem spec_C4 (file : UploadedFile)
    (h : pyLower (splitext file.name).2 ∉ SUPPORTED_FORMATS ∨
      file.size > MAX_FILE_SIZE_MB * 1024 * 1024) :
    (∀ env env' : Env, process_file env file = process_file env' file) ∧
    (∀ env : Env, process_file env file =
      Except.ok (Json.obj [("error", Json.str (validate_file (some file)).2),
                           ("file_name", Json.str file.name)])) ∧
    ((validate_file (some file)).2 = ERROR_MESSAGES_unsupported_format ∨
     (validate_file (some file)).2 = ERROR_MESSAGES_file_too_large) := by
  have hval : (validate_file (some file)).1 = false := by
    rcases h with h | h
    · simp [validate_file, h]
    · by_cases hext : pyLower (splitext file.name).2 ∉ SUPPORTED_FORMATS
      · simp [validate_file, hext]
      · simp [validate_file, hext, h]
  have hmsg : (validate_file (some file)).2 = ERROR_MESSAGES_unsupported_format ∨
      (validate_file (some file)).2 = ERROR_MESSAGES_file_too_large := by
    rcases h with h | h
    · left; simp [validate_file, h]
    · by_cases hext : pyLower (splitext file.name).2 ∉ SUPPORTED_FORMATS
      · left; simp [validate_file, hext]
      · right; simp [validate_file, hext, h]
  refine ⟨?_, ?_, hmsg⟩
  · intro env env'
    simp [process_file, hval]
  · intro env
    simp [process_file, hval]

/-- An upload with an unsupported extension. -/
def fileTxt : UploadedFile := { name := "a.txt", size := 1 }

theorem spec_C4_witness :
    (pyLower (splitext fileTxt.name).2 ∉ SUPPORTED_FORMATS ∨
      fileTxt.size > MAX_FILE_SIZE_MB * 1024 * 1024) ∧
    ((validate_file (some fileTxt)).2 = ERROR_MESSAGES_unsupported_format ∨
     (validate_file (some fileTxt)).2 = ERROR_MESSAGES_file_too_large) :=
  ⟨Or.inl (by decide), (spec_C4 fileTxt (Or.inl (by decide))).2.2⟩

/-- C5: the response is decoded strictly (via `json.loads`) after
stripping surrounding whitespace; exactly when decoding fails the item's
outcome is the parse-failure dict, and that dict retains the original
(unstripped) raw response verbatim.  When decoding succeeds the outcome
is never a parse-failure dict. -/
theorem spec_C5 (env : Env) (file_path file_name text resp : String)
    (hex : extract_text_from_file env file_path = Except.ok text)
    (hgen : env.generate_content (create_analysis_prompt text) = Except.ok resp) :
    (∀ e, env.json_loads (pyStrip resp) = Except.error e →
      analyze_single_resume env file_path file_name =
        Json.obj [("error", Json.str ("Failed to parse AI response as JSON: " ++ e)),
                  ("file_name", Json.str file_name),
                  ("raw_response", Json.str resp)]) ∧
    (∀ j, env.json_loads (pyStrip resp) = Except.ok j →
      ∀ e raw, analyze_single_resume env file_path file_name ≠
        Json.obj [("error", Json.str ("Failed to parse AI response as JSON: " ++ e)),
                  ("file_name", Json.str file_name),
                  ("raw_response", Json.str raw)]) := by
  constructor
  · intro e hj
    simp [analyze_single_resume, hex, hgen, hj]
  · intro j hj e raw heq
    simp only [analyze_single_resume, hex, hgen, hj] at heq
    cases hm : add_metadata j file_name env.strftime_now with
    | error e' =>
      rw [hm] at heq
      simp at heq
    | ok r =>
      rw [hm] at heq
      have heq' : r = Json.obj
          [("error", Json.str ("Failed to parse AI response as JSON: " ++ e)),
           ("file_name", Json.str file_name), ("raw_response", Json.str raw)] := heq
      obtain ⟨m, hget, _, _⟩ := add_metadata_fields hm
      rw [heq'] at hget
      simp [getKey, assocGet] at hget


theorem spec_C5_witness :
    analyze_single_resume testEnv "t.pdf" "cv.pdf" =
      Json.obj [("error", Json.str ("Failed to parse AI response as JSON: " ++ "Expecting value")),
                ("file_name", Json.str "cv.pdf"),
                ("raw_response", Json.str "x")] :=
  (spec_C5 testEnv "t.pdf" "cv.pdf" "" "x" rfl rfl).1 "Expecting value" rfl

/-- C8: on a successful analysis the orchestrator overwrites the decoded
record's `analysis_metadata.file_name` with the item's true name and its
`analysis_metadata.processing_timestamp` with the current clock; the
returned Success outcome holds exactly these stamped values in those two
fields, whatever the model reported there. -/
theorem spec_C8 (env : Env) (file_path file_name text resp : String) (j r : Json)
    (hex : extract_text_from_file env file_path = Except.ok text)
    (hgen : env.generate_content (create_analysis_prompt text) = Except.ok resp)
    (hjson : env.json_loads (pyStrip resp) = Except.ok j)
    (hmeta : add_metadata j file_name env.strftime_now = Except.ok r) :
    analyze_single_resume env file_path file_name = r ∧
    ∃ m, getKey r "analysis_metadata" = some (Json.obj m) ∧
      assocGet m "file_name" = some (Json.str file_name) ∧
      assocGet m "processing_timestamp" = some (Json.str env.strftime_now) := by
  constructor
  · simp [analyze_single_resume, hex, hgen, hjson, hmeta]
  · exact add_metadata_fields hmeta

theorem spec_C8_witness : analyze_single_resume envC8 "t.pdf" "cv.pdf" = rC8 :=
  (spec_C8 envC8 "t.pdf" "cv.pdf" "" "x" jC8 rC8 rfl rfl rfl rfl).1

/-- C10: when the response decodes to a value without a dict-valued
top-level `"analysis_metadata"` entry, the stamping statements raise and
the catch-all handler returns the generic Failure dict tagged with the
file name, never a Success; a Success outcome requires a stampable
`analysis_metadata` dict. -/
theorem spec_C10 (env : Env) (file_path file_name text resp : String) (j : Json)
    (hex : extract_text_from_file env file_path = Except.ok text)
    (hgen : env.generate_content (create_analysis_prompt text) = Except.ok resp)
    (hjson : env.json_loads (pyStrip resp) = Except.ok j)
    (hmeta : ∀ m, getKey j "analysis_metadata" ≠ some (Json.obj m)) :
    add_metadata j file_name env.strftime_now =
      Except.error (errMsgOf (add_metadata j file_name env.strftime_now)) ∧
    analyze_single_resume env file_path file_name =
      Json.obj [("error", Json.str ("Error analyzing resume: " ++
          errMsgOf (add_metadata j file_name env.strftime_now))),
        ("file_name", Json.str file_name)] := by
  obtain ⟨e, he⟩ := add_metadata_error_of file_name env.strftime_now hmeta
  constructor
  · rw [he]
    rfl
  · simp [analyze_single_resume, hex, hgen, hjson, he, errMsgOf]

theorem spec_C10_witness :
    analyze_single_resume envC10 "t.pdf" "cv.pdf" =
      Json.obj [("error", Json.str ("Error analyzing resume: " ++
          errMsgOf (add_metadata (Json.obj []) "cv.pdf" envC10.strftime_now))),
        ("file_name", Json.str "cv.pdf")] :=
  (spec_C10 envC10 "t.pdf" "cv.pdf" "" "x" (Json.obj []) rfl rfl rfl
    (fun _ h => Option.noConfusion h)).2

/-- C3 (counterexample): a decoded model response that itself carries a
top-level `"error"` entry passes the success path (its metadata is
stamped, pinning the outcome as the stamped model record), yet the
aggregator classifies it as a Failure — a success-path outcome CAN be
classified as a Failure under the `"error"`-field discrimination. -/
theorem spec_C3_counterexample :
    hasErrorKey (analyze_single_resume envC3 "t.pdf" "cv.pdf") = true ∧
    getKey (analyze_single_resume envC3 "t.pdf" "cv.pdf") "error" = some (Json.str "hi") ∧
    getKey (analyze_single_resume envC3 "t.pdf" "cv.pdf") "analysis_metadata" =
      some (Json.obj [("file_name", Json.str "cv.pdf"),
                      ("processing_timestamp", Json.str "2024-01-01 00:00:00")]) ∧
    successful_results [analyze_single_resume envC3 "t.pdf" "cv.pdf"] = [] ∧
    failed_results [analyze_single_resume envC3 "t.pdf" "cv.pdf"] =
      [analyze_single_resume envC3 "t.pdf" "cv.pdf"] :=
  ⟨rfl, rfl, rfl, rfl, rfl⟩

/-- C3 (amended): under the `"error"`-field discrimination every
failure-path outcome is classified Failure, and a success-path outcome is
classified Success provided the decoded model response itself carries no
top-level `"error"` entry (without that proviso the claim is false, see
the counterexample). -/
theorem spec_C3 (env : Env) (file_path file_name text resp : String) (j r : Json)
    (hex : extract_text_from_file env file_path = Except.ok text)
    (hgen : env.generate_content (create_analysis_prompt text) = Except.ok resp)
    (hjson : env.json_loads (pyStrip resp) = Except.ok j)
    (hmeta : add_metadata j file_name env.strftime_now = Except.ok r)
    (hnoerr : getKey j "error" = none) :
    analyze_single_resume env file_path file_name = r ∧
    hasErrorKey r = false ∧
    (∀ name e, hasErrorKey
      (Json.obj [("error", Json.str e), ("file_name", Json.str name)]) = true) := by
  obtain ⟨kvs, meta, hj, hg, hr⟩ := add_metadata_ok_shape hmeta
  refine ⟨by simp [analyze_single_resume, hex, hgen, hjson, hmeta], ?_, ?_⟩
  · subst hj
    subst hr
    simp only [getKey] at hnoerr
    simp only [hasErrorKey]
    rw [assocGet_assocSet_ne _ _ _ _ (by decide), hnoerr]
    rfl
  · intro name e
    simp [hasErrorKey, assocGet]

theorem spec_C3_witness : hasErrorKey rC8 = false :=
  (spec_C3 envC8 "t.pdf" "cv.pdf" "" "x" jC8 rC8 rfl rfl rfl rfl rfl).2.1

/-- C9 (counterexample): an extraction failure with cause `boom` and an
analysis-client failure with cause `boom` both settle into the same
generic Failure dict shape with no kind field, and neither message equals
the underlying cause (both are wrapped), refuting the claimed
`ExtractionError`/`ApiError` outcomes whose message is the cause. -/
theorem spec_C9_counterexample :
    analyze_single_resume envC9 "t.pdf" "cv.pdf" =
      Json.obj [("error",
          Json.str "Error analyzing resume: Error extracting text from file: boom"),
        ("file_name", Json.str "cv.pdf")] ∧
    analyze_single_resume envC9b "t.pdf" "cv.pdf" =
      Json.obj [("error", Json.str "Error analyzing resume: boom"),
        ("file_name", Json.str "cv.pdf")] ∧
    ("Error analyzing resume: Error extracting text from file: boom" : String) ≠ "boom" ∧
    ("Error analyzing resume: boom" : String) ≠ "boom" :=
  ⟨rfl, rfl, by decide, by decide⟩

/-- C9 (amended): a text-extraction failure yields the generic Failure
dict whose message wraps the cause behind the prefixes
`Error analyzing resume: Error extracting text from file: `, while an
analysis-client failure yields the generic Failure dict whose message is
`Error analyzing resume: ` followed by the cause; there is no structured
kind field, the two cases differ only by the extraction prefix in the
message. -/
theorem spec_C9 (env : Env) (file_path file_name text c : String) :
    (pyLower (splitext file_path).2 = ".pdf" →
      env.pdf_extract_text file_path = Except.error c →
      analyze_single_resume env file_path file_name =
        Json.obj [("error", Json.str ("Error analyzing resume: " ++
            ("Error extracting text from file: " ++ c))),
          ("file_name", Json.str file_name)]) ∧
    (extract_text_from_file env file_path = Except.ok text →
      env.generate_content (create_analysis_prompt text) = Except.error c →
      analyze_single_resume env file_path file_name =
        Json.obj [("error", Json.str ("Error analyzing resume: " ++ c)),
          ("file_name", Json.str file_name)]) := by
  constructor
  · intro hext hpdf
    have hx : extract_text_from_file env file_path =
        Except.error ("Error extracting text from file: " ++ c) := by
      simp [extract_text_from_file, hext, hpdf]
    simp [analyze_single_resume, hx]
  · intro hex hgen
    simp [analyze_single_resume, hex, hgen]

theorem spec_C9_witness :
    pyLower (splitext "t.pdf").2 = ".pdf" ∧
    analyze_single_resume envC9 "t.pdf" "cv.pdf" =
      Json.obj [("error", Json.str ("Error analyzing resume: " ++
          ("Error extracting text from file: " ++ "boom"))),
        ("file_name", Json.str "cv.pdf")] :=
  ⟨by decide, (spec_C9 envC9 "t.pdf" "cv.pdf" "" "boom").1 (by decide) rfl⟩

/-- C6: with a progress callback supplied, it is invoked exactly once per
completed chunk with `min((i + len(batch)) / len(files) * 100, 100)`;
successive reported values are non-decreasing; the final report (when at
least one chunk exists) is exactly 100; and for an empty input the
callback is never invoked and the returned outcome list is empty. -/
theorem spec_C6 (env : Env) (batchSize : Nat) (files : List UploadedFile)
    (hbs : 0 < batchSize) :
    (files = [] → (process_batch env batchSize files).progress = [] ∧
      (process_batch env batchSize files).results = []) ∧
    List.Chain' (fun a b : Rat => a ≤ b) (process_batch env batchSize files).progress ∧
    (files ≠ [] → (process_batch env batchSize files).progress.getLast? = some 100) ∧
    (process_batch env batchSize files).progress.length =
      numChunks files.length batchSize ∧
    (∀ k, k * batchSize < files.length →
      (process_batch env batchSize files).progress.get? k =
        some (pyMin (((min ((k + 1) * batchSize) files.length : Nat) : Rat) /
          (files.length : Rat) * 100) 100)) := by
  refine ⟨?_, ?_, ?_, ?_, ?_⟩
  · intro h
    subst h
    exact ⟨rfl, rfl⟩
  · exact go_progress_chain env batchSize files hbs files.length 0 (by omega)
  · intro h
    have hpos : 0 < files.length := List.length_pos.mpr h
    exact go_progress_last env batchSize files hbs files.length 0 hpos (by omega)
  · have hl := go_progress_length env batchSize files hbs files.length 0 (by omega)
    rw [Nat.sub_zero] at hl
    exact hl
  · intro k hk
    have hg := go_progress_get env batchSize files hbs files.length 0 k (by omega) (by omega)
    rw [Nat.zero_add] at hg
    exact hg

theorem spec_C6_witness :
    0 < 10 ∧ (process_batch testEnv 10 files25).progress.length =
      numChunks files25.length 10 :=
  ⟨by decide, (spec_C6 testEnv 10 files25 (by decide)).2.2.2.1⟩

/-- C7: the inter-chunk rate-limit delay is awaited after every chunk
except the last (none at all when a single chunk suffices, in particular
when the chunk size exceeds the input length); concretely, 25 items with
chunk size 10 are processed as chunks of sizes 10, 10, 5 with the delay
awaited exactly twice and the progress callback invoked exactly three
times with 40.0, 80.0, 100.0. -/
theorem spec_C7 (env : Env) (batchSize : Nat) (files : List UploadedFile)
    (hbs : 0 < batchSize) :
    (files ≠ [] → (process_batch env batchSize files).delays + 1 =
      numChunks files.length batchSize) ∧
    (files.length ≤ batchSize → (process_batch env batchSize files).delays = 0) ∧
    (process_batch testEnv 10 files25).delays = 2 ∧
    (process_batch testEnv 10 files25).progress = [(40 : Rat), 80, 100] ∧
    (pyChunks 10 files25).map List.length = [10, 10, 5] := by
  have hd := go_delays env batchSize files hbs files.length 0 (by omega)
  rw [Nat.sub_zero] at hd
  refine ⟨?_, ?_, ?_, ?_, ?_⟩
  · intro h
    have hpos : 0 < files.length := List.length_pos.mpr h
    have h1 : 0 < numChunks files.length batchSize := numChunks_pos hpos hbs
    rw [process_batch]
    omega
  · intro h
    rcases Nat.eq_zero_or_pos files.length with h0 | h0
    · rw [process_batch, h0]
      rfl
    · have h1 : numChunks files.length batchSize = 1 := numChunks_eq_one h0 h
      rw [process_batch]
      omega
  · decide
  · have hlen : files25.length = 25 := by decide
    have h3 : (process_batch testEnv 10 files25).progress.length = 3 := by
      have hl := go_progress_length testEnv 10 files25 (by decide) files25.length 0 (by omega)
      rw [Nat.sub_zero] at hl
      rw [process_batch, hl, hlen]
      decide
    have hv : ∀ k, k * 10 < files25.length →
        (process_batch testEnv 10 files25).progress.get? k =
          some (pyMin (((min ((k + 1) * 10) files25.length : Nat) : Rat) /
            (files25.length : Rat) * 100) 100) := by
      intro k hk
      have hg := go_progress_get testEnv 10 files25 (by decide) files25.length 0 k
        (by omega) (by omega)
      rw [Nat.zero_add] at hg
      exact hg
    apply List.ext_get?
    intro n
    match n with
    | 0 =>
      rw [hv 0 (by rw [hlen]; decide)]
      rw [hlen]
      norm_num [pyMin]
    | 1 =>
      rw [hv 1 (by rw [hlen]; decide)]
      rw [hlen]
      norm_num [pyMin]
    | 2 =>
      rw [hv 2 (by rw [hlen]; decide)]
      rw [hlen]
      norm_num [pyMin]
    | n + 3 =>
      rw [List.get?_eq_none.mpr (by rw [h3]; omega),
        List.get?_eq_none.mpr (by simp)]
  · decide

theorem spec_C7_witness :
    0 < 10 ∧ (process_batch testEnv 10 files25).delays = 2 :=
  ⟨by decide, (spec_C7 testEnv 10 files25 (by decide)).2.2.1⟩

end ResumeAnalyzer
